import Mathlib

/-!
Shallow embedding of the malldepot warehouse synchronisation code
(src/app/utilities/sync_utilities.py, src/app/sync/routes.py,
src/app/models.py) and proofs about it.

Database rows are modelled as Lean structures holding exactly the columns
the synchronisation logic reads or writes; columns it never touches
(ids, pictures, timestamps, float-valued prices) are omitted.  The
SQLAlchemy session is modelled by explicit state passing over a
`WarehouseDB` record of row lists; `db.session.add` on a fresh row appends
it, mutation of a fetched ORM object rewrites the first row with the
matching code (`Model.query.filter_by(code=...).first()` semantics), and a
`SQLAlchemyError` at a commit point is modelled by a boolean failure
oracle supplied as a parameter, with rollback leaving the state as it was
before the failing iteration's changes.  HTTP traffic is modelled by
oracles describing the remote side's response.
-/

namespace Malldepot

/-- ItemStatus enumeration from models.py: the only two statuses. -/
inductive ItemStatus where
  | NOT_FOR_SALE
  | FOR_SALE
deriving DecidableEq, Repr

/-- IssueStatus enumeration from models.py. -/
inductive IssueStatus where
  | UNRESOLVED
  | RESOLVED
deriving DecidableEq, Repr

/-- Item model (models.py, `items` table): the columns read or written by
the sync code.  `units_in_stock` and `units_purchased` are integer
columns; `requires_sync` is the needsOutboundSync flag. -/
structure Item where
  code : String
  name : String
  units_in_stock : Int
  units_purchased : Int
  status : ItemStatus
  requires_sync : Bool
deriving DecidableEq, Repr

/-- DeletedItem model (models.py, `deleted_items` table): columns used by
the sync code. -/
structure DeletedItem where
  code : String
  name : String
  requires_sync : Bool
deriving DecidableEq, Repr

/-- Issue model (models.py, `issues` table): an anomaly ticket.  Tickets
are always created with status UNRESOLVED; `raised_time` is omitted. -/
structure Issue where
  message : String
  status : IssueStatus
deriving DecidableEq, Repr

/-- One purchase event as parsed from the store's JSON: the dict keys that
update_purchase_data and update_stock_data read.  Float-valued price
fields, which the logic only copies, are omitted. -/
structure PurchaseEvent where
  purchase_code : String
  code : String
  name : String
  vendor_name : String
  quantity : Int
deriving DecidableEq, Repr

/-- PurchaseHistory model (models.py, `purchase_history` table): the
columns update_purchase_data fills from a purchase event (timestamps and
float price columns omitted). -/
structure PurchaseHistory where
  purchase_code : String
  item_code : String
  item_name : String
  vendor_name : String
  quantity : Int
deriving DecidableEq, Repr

/-- SyncHistory model (models.py, `sync_history` table): the sync route
only varies the error_code column (0 success, 1 download/upload failure,
2 purchase-history failure, 3 stock-update failure). -/
structure SyncHistoryRecord where
  error_code : Nat
deriving DecidableEq, Repr

/-- The warehouse database state touched by a sync run. -/
structure WarehouseDB where
  items : List Item
  deleted_items : List DeletedItem
  issues : List Issue
  purchase_history : List PurchaseHistory
  sync_history : List SyncHistoryRecord
deriving DecidableEq, Repr

/-- Model.query.filter_by(code=c).first() on the items table. -/
def find_first_item (items : List Item) (c : String) : Option Item :=
  items.find? (fun i => i.code == c)

/-- Model.query.filter_by(code=c).first() on the deleted_items table. -/
def find_first_deleted (rows : List DeletedItem) (c : String) : Option DeletedItem :=
  rows.find? (fun d => d.code == c)

/-- Mutating the ORM object returned by .first(): rewrite the first row
whose code matches, leave every other row unchanged. -/
def update_first_item (items : List Item) (c : String) (f : Item → Item) : List Item :=
  match items with
  | [] => []
  | i :: rest => if i.code == c then f i :: rest else i :: update_first_item rest c f

/-- Same for the deleted_items table. -/
def update_first_deleted (rows : List DeletedItem) (c : String) (f : DeletedItem → DeletedItem) :
    List DeletedItem :=
  match rows with
  | [] => []
  | d :: rest => if d.code == c then f d :: rest else d :: update_first_deleted rest c f

/-- The PurchaseHistory row built from one event (sync_utilities.py lines 91-103). -/
def mkPurchaseHistory (e : PurchaseEvent) : PurchaseHistory :=
  { purchase_code := e.purchase_code
    item_code := e.code
    item_name := e.name
    vendor_name := e.vendor_name
    quantity := e.quantity }

/-- Issue message of the item-not-found branch (sync_utilities.py line 152). -/
def notFoundMessage (code name : String) : String :=
  "Item with code " ++ code ++ " and name " ++ name ++ " not found."

/-- Issue message of the deleted-item branch (sync_utilities.py line 161). -/
def deletedItemMessage (code name : String) : String :=
  "Purchase on deleted item: " ++ code ++ " " ++ name

/-- Issue message of the stock-underflow branch (sync_utilities.py line 173). -/
def runningOutMessage (code name : String) (balance : Int) : String :=
  "Running out of stock for: " ++ code ++ " " ++ name ++ ", balance is " ++
    toString balance ++ " units."

/-- A freshly raised issue: status UNRESOLVED (sync_utilities.py lines 154, 162, 174). -/
def mkIssue (message : String) : Issue :=
  { message := message, status := IssueStatus.UNRESOLVED }

/-- Embedding of update_purchase_data (sync_utilities.py lines 61-114).

An empty batch returns True at once (line 79).  Otherwise the for loop's
body builds a PurchaseHistory row, adds it and commits — and then executes
`return True` (line 108), which sits INSIDE the loop: the function leaves
after the first iteration, so every event after the first is unreachable.
A SQLAlchemyError at the commit (the `commit_fails` oracle) rolls the
session back and returns False (lines 110-114). -/
def update_purchase_data (commit_fails : PurchaseEvent → Bool) (db : WarehouseDB)
    (items_to_sync : List PurchaseEvent) : Bool × WarehouseDB :=
  match items_to_sync with
  | [] => (true, db)
  | item :: _ =>
      if commit_fails item then
        (false, db)
      else
        (true, { db with purchase_history := db.purchase_history ++ [mkPurchaseHistory item] })

/-- The body of update_stock_data's for loop for one purchase event
(sync_utilities.py lines 140-187), except the try/except handling which
lives in the loop embedding.  Returns the new state and the increment to
issues_raised.

Branches, in source order:
* neither a live Item nor a DeletedItem carries the code (lines 149-156):
  issues_raised is incremented but the freshly built Issue is never passed
  to db.session.add, so no Issue row is persisted;
* a DeletedItem carries the code (lines 158-165): an Issue is added,
  nothing else changes;
* a live Item carries the code (lines 167-187): new_stock =
  units_in_stock - quantity; if new_stock <= 0 an Issue is added and
  units_in_stock is clamped to 0, else units_in_stock := new_stock; in
  both cases units_purchased grows by the purchased quantity. -/
def apply_purchase_event (db : WarehouseDB) (purchase : PurchaseEvent) : WarehouseDB × Nat :=
  let item := find_first_item db.items purchase.code
  let deleted_item := find_first_deleted db.deleted_items purchase.code
  if item.isNone && deleted_item.isNone then
    -- new_issue = Issue(notFoundMessage ...) is constructed here in the
    -- source but never added to the session: the state is unchanged.
    (db, 1)
  else
    match deleted_item with
    | some d =>
        ({ db with issues := db.issues ++ [mkIssue (deletedItemMessage purchase.code d.name)] }, 1)
    | none =>
        match item with
        | some it =>
            let new_stock := it.units_in_stock - purchase.quantity
            if new_stock ≤ 0 then
              ({ db with
                  issues := db.issues ++
                    [mkIssue (runningOutMessage purchase.code it.name new_stock)]
                  items := update_first_item db.items purchase.code (fun i =>
                    { i with units_in_stock := 0
                             units_purchased := i.units_purchased + purchase.quantity }) }, 1)
            else
              ({ db with
                  items := update_first_item db.items purchase.code (fun i =>
                    { i with units_in_stock := new_stock
                             units_purchased := i.units_purchased + purchase.quantity }) }, 0)
        | none => (db, 0)

/-- Success message of update_stock_data (sync_utilities.py line 138). -/
def stockSuccessMessage : String := "Stock data updated successfully."

/-- Failure message of update_stock_data (sync_utilities.py line 193). -/
def stockFailureMessage : String := "Failed to update stock data due to a database error."

/-- The for loop of update_stock_data.  `commit_fails idx` says whether a
SQLAlchemyError strikes while processing the event at position idx; on
failure the session rolls back (this iteration's changes are discarded),
success becomes False and the loop breaks (lines 189-194). -/
def update_stock_data_go (commit_fails : Nat → Bool) :
    Nat → WarehouseDB → Nat → List PurchaseEvent → (Bool × String × Nat) × WarehouseDB
  | _, db, issues, [] => ((true, stockSuccessMessage, issues), db)
  | idx, db, issues, p :: rest =>
      if commit_fails idx then
        ((false, stockFailureMessage, issues), db)
      else
        let step := apply_purchase_event db p
        update_stock_data_go commit_fails (idx + 1) step.1 (issues + step.2) rest

/-- Embedding of update_stock_data (sync_utilities.py lines 121-196):
returns the Python return value, the tuple
(success, message, issues_raised), together with the resulting state. -/
def update_stock_data (commit_fails : Nat → Bool) (db : WarehouseDB)
    (data_to_apply : List PurchaseEvent) : (Bool × String × Nat) × WarehouseDB :=
  update_stock_data_go commit_fails 0 db 0 data_to_apply

/-- Python truthiness of the (success, message, issues_raised) tuple that
update_stock_data returns: a non-empty tuple object is truthy whatever its
contents, so this is constantly true.  The sync route's check
`if not update_stock_data(...)` (routes.py line 147) tests exactly this. -/
def tripleTruthy (_t : Bool × String × Nat) : Bool := true

/-- A JSON value, as returned by response.json(); used to model the body
the store sends back to an upload. -/
inductive Json where
  | null
  | bool (b : Bool)
  | num (n : Int)
  | str (s : String)
  | arr (elems : List Json)
  | obj (fields : List (String × Json))

/-- Python truthiness of a parsed JSON value: None, False, 0, "", [] and
\x7b\x7d are falsy, everything else truthy. -/
def Json.pyTruthy : Json → Bool
  | .null => false
  | .bool b => b
  | .num n => n != 0
  | .str s => s != ""
  | .arr elems => !elems.isEmpty
  | .obj fields => !fields.isEmpty

/-- Python truthiness of the value the route binds to upload_result: None
is falsy, a JSON value by Json.pyTruthy. -/
def pyTruthyOptJson : Option Json → Bool
  | none => false
  | some j => j.pyTruthy

/-- Outcome of the GET request issued by download_data, the oracle for the
remote side: a 200 response whose body parses to the purchases list, a
non-200 response, or a requests exception. -/
inductive HttpGetResult where
  | ok (body : List PurchaseEvent)
  | httpError (status : Nat) (text : String)
  | connectionError
  | timeoutError
deriving Repr

/-- Embedding of download_data (sync_utilities.py lines 338-372): status
200 yields (True, parsed body, ok message); any non-200 status or
exception yields (False, None, error message). -/
def download_data : HttpGetResult → Bool × Option (List PurchaseEvent) × String
  | .ok body => (true, some body, "Connection to store OK.")
  | .httpError status text => (false, none, "Error " ++ toString status ++ ": " ++ text)
  | .connectionError => (false, none, "Failed to connect to the server.")
  | .timeoutError => (false, none, "Request timed out.")

/-- Outcome of the POST request issued by upload_data, the oracle for the
remote side: a response with a status code and parsed JSON body, or a
requests exception. -/
inductive HttpPostResult where
  | response (status : Nat) (body : Json)
  | connectionError
  | timeoutError
  | requestError

/-- Embedding of upload_data (sync_utilities.py lines 277-335): on a 200
response it returns the parsed JSON body (line 307); on every other status
(lines 309-323) and on every requests exception (lines 326-335) it returns
None. -/
def upload_data : HttpPostResult → Option Json
  | .response status body => if status == 200 then some body else none
  | .connectionError => none
  | .timeoutError => none
  | .requestError => none

/-- Filter of the deleted category (routes.py lines 181-183:
prepare_updates on DeletedItem with requires_sync=True). -/
def deletedFilter (d : DeletedItem) : Bool :=
  d.requires_sync

/-- Filter of the not_for_sale category (routes.py lines 187-190:
prepare_updates on Item with requires_sync=True, status=NOT_FOR_SALE). -/
def notForSaleFilter (i : Item) : Bool :=
  i.requires_sync && i.status == ItemStatus.NOT_FOR_SALE

/-- Filter of the out_of_stock category (routes.py lines 194-198:
prepare_updates_advanced on Item with requires_sync=True,
status=FOR_SALE, units_in_stock <= 0). -/
def outOfStockFilter (i : Item) : Bool :=
  i.requires_sync && i.status == ItemStatus.FOR_SALE && i.units_in_stock ≤ 0

/-- Filter of the stock_updates category (routes.py lines 202-207:
prepare_updates_advanced on Item with requires_sync=True,
status=FOR_SALE, units_in_stock > 0). -/
def stockUpdatesFilter (i : Item) : Bool :=
  i.requires_sync && i.status == ItemStatus.FOR_SALE && i.units_in_stock > 0

/-- prepare_updates / prepare_updates_advanced (sync_utilities.py lines
199-274) select the rows passing the given filters, in table order, and
project the requested attributes.  The projections always include 'code',
which is all the route later reads back; the embedding keeps the full
rows. -/
def prepare_deleted (db : WarehouseDB) : List DeletedItem :=
  db.deleted_items.filter deletedFilter

/-- Rows of the not_for_sale category. -/
def prepare_not_for_sale (db : WarehouseDB) : List Item :=
  db.items.filter notForSaleFilter

/-- Rows of the out_of_stock category. -/
def prepare_out_of_stock (db : WarehouseDB) : List Item :=
  db.items.filter outOfStockFilter

/-- Rows of the stock_updates category. -/
def prepare_stock_updates (db : WarehouseDB) : List Item :=
  db.items.filter stockUpdatesFilter

/-- The sync_data payload the route assembles (routes.py lines 176-208). -/
structure SyncData where
  deleted : List DeletedItem
  not_for_sale : List Item
  out_of_stock : List Item
  stock_updates : List Item
deriving DecidableEq, Repr

/-- Assembly of sync_data from the four prepare calls. -/
def build_sync_data (db : WarehouseDB) : SyncData :=
  { deleted := prepare_deleted db
    not_for_sale := prepare_not_for_sale db
    out_of_stock := prepare_out_of_stock db
    stock_updates := prepare_stock_updates db }

/-- set_single_value_on_list on the items table with
target_field_to_update='requires_sync', new_value=False (sync_utilities.py
lines 418-468): for each input record carrying a 'code', the first row
with that code gets its flag cleared; the route discards the returned
OperationResult, and the commit is modelled as succeeding. -/
def clear_sync_flag_items (items : List Item) : List String → List Item
  | [] => items
  | c :: rest =>
      clear_sync_flag_items
        (update_first_item items c (fun i => { i with requires_sync := false })) rest

/-- Same on the deleted_items table. -/
def clear_sync_flag_deleted (rows : List DeletedItem) : List String → List DeletedItem
  | [] => rows
  | c :: rest =>
      clear_sync_flag_deleted
        (update_first_deleted rows c (fun d => { d with requires_sync := false })) rest

/-- What the route renders at the end of a sync run. -/
inductive SyncRender where
  | success
  | failure
deriving DecidableEq, Repr

/-- Result of a sync run: the final database state, which template was
rendered, and whether the upload POST was ever issued (instrumentation
marking whether control reached routes.py line 212). -/
structure SyncOutcome where
  db : WarehouseDB
  render : SyncRender
  upload_attempted : Bool

/-- Appending a SyncHistory row (routes.py lines 160-166, 219-225, 263-269). -/
def addSyncRecord (db : WarehouseDB) (ec : Nat) : WarehouseDB :=
  { db with sync_history := db.sync_history ++ [{ error_code := ec }] }

/-- Download-and-apply phase of the sync route (routes.py lines 137-156),
returning the error_code it leaves behind and the state.

The route sets error_code = 1 when download_data reports failure.  On
success, when the purchases list is truthy (non-empty), it runs
update_purchase_data (error_code = 2 on a False return, but execution
falls through — the `pass` on line 146) and then always runs
update_stock_data, setting error_code = 3 only when the returned value is
falsy — which never happens, since the returned 3-tuple is always truthy
(tripleTruthy). -/
def sync_apply_phase (purchase_commit_fails : PurchaseEvent → Bool)
    (stock_commit_fails : Nat → Bool) (dl : HttpGetResult) (db : WarehouseDB) :
    Nat × WarehouseDB :=
  let dres := download_data dl
  match dres.2.1 with
  | some webshop_purchases =>
      if webshop_purchases.isEmpty then
        (0, db)
      else
        let pres := update_purchase_data purchase_commit_fails db webshop_purchases
        let error_code := if pres.1 then 0 else 2
        let sres := update_stock_data stock_commit_fails pres.2 webshop_purchases
        let error_code := if tripleTruthy sres.1 then error_code else 3
        (error_code, sres.2)
  | none => (1, db)

/-- Embedding of the sync route (routes.py lines 88-274).

After the apply phase, a non-zero error_code writes a SyncHistory row and
renders the failure page without touching the upload (lines 158-169).
Otherwise the four categories are assembled into sync_data (lines
176-208), upload_data posts them (line 212), and a falsy upload_result
writes a SyncHistory row with error_code 1 and renders failure (lines
214-228).  On a truthy upload_result the requires_sync flags of the
uploaded records are cleared, in route order deleted, out_of_stock,
not_for_sale, stock_updates (lines 233-259), a SyncHistory row with
error_code 0 is written and the success page rendered (lines 263-274). -/
def sync (purchase_commit_fails : PurchaseEvent → Bool) (stock_commit_fails : Nat → Bool)
    (dl : HttpGetResult) (ul : HttpPostResult) (db : WarehouseDB) : SyncOutcome :=
  let phase := sync_apply_phase purchase_commit_fails stock_commit_fails dl db
  let error_code := phase.1
  let db1 := phase.2
  if error_code ≠ 0 then
    { db := addSyncRecord db1 error_code, render := .failure, upload_attempted := false }
  else
    let sync_data := build_sync_data db1
    let upload_result := upload_data ul
    if !pyTruthyOptJson upload_result then
      { db := addSyncRecord db1 1, render := .failure, upload_attempted := true }
    else
      let deleted1 := clear_sync_flag_deleted db1.deleted_items
        (sync_data.deleted.map DeletedItem.code)
      let items1 := clear_sync_flag_items db1.items
        (sync_data.out_of_stock.map Item.code)
      let items2 := clear_sync_flag_items items1
        (sync_data.not_for_sale.map Item.code)
      let items3 := clear_sync_flag_items items2
        (sync_data.stock_updates.map Item.code)
      { db := addSyncRecord { db1 with items := items3, deleted_items := deleted1 } 0
        render := .success
        upload_attempted := true }

/-- A record visible to the delta categorizer: either a live StockItem row
or a DeletedItemRecord row. -/
inductive StoreRecord where
  | stockRec (i : Item)
  | deletedRec (d : DeletedItem)

/-- A record is pending when its requires_sync flag is set. -/
def recordPending : StoreRecord → Bool
  | .stockRec i => i.requires_sync
  | .deletedRec d => d.requires_sync

/-- Membership in the deleted category (routes.py line 181). -/
def inDeletedCategory : StoreRecord → Bool
  | .stockRec _ => false
  | .deletedRec d => deletedFilter d

/-- Membership in the not_for_sale category (routes.py line 187). -/
def inNotForSaleCategory : StoreRecord → Bool
  | .stockRec i => notForSaleFilter i
  | .deletedRec _ => false

/-- Membership in the out_of_stock category (routes.py line 194). -/
def inOutOfStockCategory : StoreRecord → Bool
  | .stockRec i => outOfStockFilter i
  | .deletedRec _ => false

/-- Membership in the stock_updates category (routes.py line 202). -/
def inStockUpdatesCategory : StoreRecord → Bool
  | .stockRec i => stockUpdatesFilter i
  | .deletedRec _ => false

/-- In how many of the four delta categories a record sits. -/
def categoryCount (r : StoreRecord) : Nat :=
  (cond (inDeletedCategory r) 1 0) + (cond (inNotForSaleCategory r) 1 0) +
    (cond (inOutOfStockCategory r) 1 0) + (cond (inStockUpdatesCategory r) 1 0)

/-!  Concrete fixtures used to exercise the definitions. -/

/-- A purchase-commit oracle under which every commit succeeds. -/
def noPurchaseFail : PurchaseEvent → Bool := fun _ => false

/-- A stock-commit oracle under which every commit succeeds. -/
def noStockFail : Nat → Bool := fun _ => false

/-- A stock-commit oracle under which every commit raises SQLAlchemyError. -/
def allStockFail : Nat → Bool := fun _ => true

/-- An empty warehouse database. -/
def emptyDB : WarehouseDB :=
  { items := [], deleted_items := [], issues := [], purchase_history := [], sync_history := [] }

/-- A live, flagged, for-sale item with 10 units in stock. -/
def itemA : Item :=
  { code := "A100", name := "Widget", units_in_stock := 10, units_purchased := 0
    status := ItemStatus.FOR_SALE, requires_sync := true }

/-- The same item with its sync flag already cleared by a previous run. -/
def itemAUnflagged : Item :=
  { itemA with requires_sync := false }

/-- A purchase of 3 units of itemA. -/
def eventA3 : PurchaseEvent :=
  { purchase_code := "P1", code := "A100", name := "Widget", vendor_name := "Acme", quantity := 3 }

/-- A second purchase event, on a different item code. -/
def eventB2 : PurchaseEvent :=
  { purchase_code := "P2", code := "B200", name := "Gadget", vendor_name := "Acme", quantity := 2 }

/-- A purchase event whose code matches no live and no deleted item. -/
def eventGhost : PurchaseEvent :=
  { purchase_code := "P3", code := "ZZZ", name := "Phantom", vendor_name := "Acme", quantity := 1 }

/-- A database holding just itemA. -/
def dbItemA : WarehouseDB :=
  { emptyDB with items := [itemA] }

/-- A database holding itemA with the sync flag cleared. -/
def dbItemAUnflagged : WarehouseDB :=
  { emptyDB with items := [itemAUnflagged] }

/-- A purchase of 12 units of itemA, more than its 10 units in stock. -/
def eventA12 : PurchaseEvent :=
  { purchase_code := "P4", code := "A100", name := "Widget", vendor_name := "Acme", quantity := 12 }

/-- A deleted-items row carrying the same code as itemA. -/
def deletedA : DeletedItem :=
  { code := "A100", name := "Widget", requires_sync := true }

/-- A database where code A100 appears both as a live item and as a
deleted record. -/
def dbBoth : WarehouseDB :=
  { emptyDB with items := [itemA], deleted_items := [deletedA] }

/-!  Helper lemmas. -/

/-- Looking up the code just rewritten by update_first_item finds the
rewritten row, provided the rewrite does not change the code column. -/
lemma find_first_item_update_first_item (items : List Item) (c : String) (f : Item → Item)
    (hf : ∀ i, (f i).code = i.code) :
    find_first_item (update_first_item items c f) c = (find_first_item items c).map f := by
  induction items with
  | nil => rfl
  | cons i rest ih =>
      by_cases h : (i.code == c) = true
      · have hfi : ((f i).code == c) = true := by rw [hf i]; exact h
        simp [update_first_item, find_first_item, List.find?, h, hfi]
      · have h' : (i.code == c) = false := by
          cases hv : (i.code == c) with
          | true => exact absurd hv h
          | false => rfl
        simp only [update_first_item, h', Bool.false_eq_true, if_false, find_first_item,
          List.find?, ite_false]
        exact ih

/-- One live-item purchase event with underflow, evaluated: the issue is
appended, the first matching item is clamped to 0 stock with the counter
grown by the full quantity. -/
lemma apply_purchase_event_underflow (db : WarehouseDB) (p : PurchaseEvent) (it : Item)
    (hfind : find_first_item db.items p.code = some it)
    (hdel : find_first_deleted db.deleted_items p.code = none)
    (hq : it.units_in_stock ≤ p.quantity) :
    apply_purchase_event db p =
      ({ db with
          issues := db.issues ++
            [mkIssue (runningOutMessage p.code it.name (it.units_in_stock - p.quantity))]
          items := update_first_item db.items p.code (fun i =>
            { i with units_in_stock := 0
                     units_purchased := i.units_purchased + p.quantity }) }, 1) := by
  simp only [apply_purchase_event, hfind, hdel, Option.isNone_some, Option.isNone_none,
    Bool.false_and, Bool.false_eq_true, if_false, ite_false]
  rw [if_pos (by omega)]

/-- Projection of an item to the columns the sync-flag claims watch:
its code and its requires_sync flag. -/
def itemFlagProj (i : Item) : String × Bool := (i.code, i.requires_sync)

/-- update_first_item leaves the (code, requires_sync) projection alone
whenever the rewrite touches neither column. -/
lemma map_flagProj_update_first (items : List Item) (c : String) (f : Item → Item)
    (hf : ∀ i, (f i).code = i.code ∧ (f i).requires_sync = i.requires_sync) :
    (update_first_item items c f).map itemFlagProj = items.map itemFlagProj := by
  induction items with
  | nil => rfl
  | cons i rest ih =>
      cases h : (i.code == c) with
      | false => simp [update_first_item, h, ih]
      | true => simp [update_first_item, h, itemFlagProj, (hf i).1, (hf i).2]

/-- Applying one purchase event never changes any requires_sync flag of
the items table (only quantities and counters move) and never changes the
deleted_items table. -/
lemma apply_purchase_event_preserves_flags (db : WarehouseDB) (p : PurchaseEvent) :
    (apply_purchase_event db p).1.items.map itemFlagProj = db.items.map itemFlagProj ∧
    (apply_purchase_event db p).1.deleted_items = db.deleted_items := by
  cases hi : find_first_item db.items p.code with
  | none =>
      cases hd : find_first_deleted db.deleted_items p.code with
      | none => simp [apply_purchase_event, hi, hd]
      | some d => simp [apply_purchase_event, hi, hd]
  | some it =>
      cases hd : find_first_deleted db.deleted_items p.code with
      | some d => simp [apply_purchase_event, hi, hd]
      | none =>
          simp only [apply_purchase_event, hi, hd, Option.isNone_some, Option.isNone_none,
            Bool.false_and, Bool.false_eq_true, if_false, ite_false]
          by_cases hq : it.units_in_stock - p.quantity ≤ 0
          · rw [if_pos hq]
            exact ⟨map_flagProj_update_first _ _ _ (fun i => ⟨rfl, rfl⟩), rfl⟩
          · rw [if_neg hq]
            exact ⟨map_flagProj_update_first _ _ _ (fun i => ⟨rfl, rfl⟩), rfl⟩

/-- The update_stock_data loop never changes a requires_sync flag and
never changes the deleted_items table, whatever the commit oracle does. -/
lemma update_stock_data_go_preserves_flags (cf : Nat → Bool) (events : List PurchaseEvent) :
    ∀ (idx : Nat) (db : WarehouseDB) (issues : Nat),
      (update_stock_data_go cf idx db issues events).2.items.map itemFlagProj =
        db.items.map itemFlagProj ∧
      (update_stock_data_go cf idx db issues events).2.deleted_items = db.deleted_items := by
  induction events with
  | nil => intro idx db issues; exact ⟨rfl, rfl⟩
  | cons p rest ih =>
      intro idx db issues
      cases h : cf idx with
      | true => simp [update_stock_data_go, h]
      | false =>
          obtain ⟨h1, h2⟩ :=
            ih (idx + 1) (apply_purchase_event db p).1 (issues + (apply_purchase_event db p).2)
          obtain ⟨g1, g2⟩ := apply_purchase_event_preserves_flags db p
          simp only [update_stock_data_go, h, Bool.false_eq_true, if_false, ite_false]
          exact ⟨h1.trans g1, h2.trans g2⟩

/-- update_purchase_data only writes the purchase_history table: items and
deleted_items are returned as they came. -/
lemma update_purchase_data_preserves_items (cf : PurchaseEvent → Bool) (db : WarehouseDB)
    (events : List PurchaseEvent) :
    (update_purchase_data cf db events).2.items = db.items ∧
    (update_purchase_data cf db events).2.deleted_items = db.deleted_items := by
  cases events with
  | nil => exact ⟨rfl, rfl⟩
  | cons e rest =>
      cases h : cf e with
      | true => simp [update_purchase_data, h]
      | false => simp [update_purchase_data, h]

/-- The whole download-and-apply phase never changes a requires_sync flag
and never changes the deleted_items table. -/
lemma sync_apply_phase_preserves_flags (pcf : PurchaseEvent → Bool) (scf : Nat → Bool)
    (dl : HttpGetResult) (db : WarehouseDB) :
    (sync_apply_phase pcf scf dl db).2.items.map itemFlagProj = db.items.map itemFlagProj ∧
    (sync_apply_phase pcf scf dl db).2.deleted_items = db.deleted_items := by
  cases hdl : (download_data dl).2.1 with
  | none => simp [sync_apply_phase, hdl]
  | some ps =>
      by_cases hemp : ps.isEmpty
      · simp [sync_apply_phase, hdl, hemp]
      · simp only [sync_apply_phase, hdl, hemp, Bool.false_eq_true, if_false, ite_false]
        obtain ⟨p1, p2⟩ := update_purchase_data_preserves_items pcf db ps
        obtain ⟨s1, s2⟩ :=
          update_stock_data_go_preserves_flags scf ps 0 (update_purchase_data pcf db ps).2 0
        refine ⟨?_, ?_⟩
        · exact s1.trans (by rw [p1])
        · exact s2.trans p2

/-- build_sync_data only reads the items and deleted_items tables, so a
new SyncHistory row does not change it. -/
lemma build_sync_data_addSyncRecord (db : WarehouseDB) (ec : Nat) :
    build_sync_data (addSyncRecord db ec) = build_sync_data db := rfl

/-- Evaluation of the sync route when the apply phase ended clean and the
upload result is falsy: a SyncHistory row with error code 1 is appended,
the failure page is rendered, the flags are left as the apply phase left
them. -/
lemma sync_eq_upload_failed (pcf : PurchaseEvent → Bool) (scf : Nat → Bool)
    (dl : HttpGetResult) (ul : HttpPostResult) (db : WarehouseDB)
    (happly : (sync_apply_phase pcf scf dl db).1 = 0)
    (hup : pyTruthyOptJson (upload_data ul) = false) :
    sync pcf scf dl ul db =
      { db := addSyncRecord (sync_apply_phase pcf scf dl db).2 1
        render := SyncRender.failure
        upload_attempted := true } := by
  unfold sync
  simp [happly, hup]

/-- Evaluation of the sync route when the apply phase ended clean and the
upload result is truthy: success page, SyncHistory row with error code 0. -/
lemma sync_upload_ok_projections (pcf : PurchaseEvent → Bool) (scf : Nat → Bool)
    (dl : HttpGetResult) (ul : HttpPostResult) (db : WarehouseDB)
    (happly : (sync_apply_phase pcf scf dl db).1 = 0)
    (hup : pyTruthyOptJson (upload_data ul) = true) :
    (sync pcf scf dl ul db).render = SyncRender.success ∧
    (sync pcf scf dl ul db).db.sync_history =
      (sync_apply_phase pcf scf dl db).2.sync_history ++ [{ error_code := 0 }] ∧
    (sync pcf scf dl ul db).upload_attempted = true := by
  unfold sync
  simp [happly, hup, addSyncRecord]

/-!  Claim theorems. -/

/-- C1.  The claim says update_purchase_data persists EVERY event of a
non-empty batch, in arrival order, aborting only on a persistence failure.
The code's `return True` sits inside the for loop (sync_utilities.py line
108): on the batch [eventA3, eventB2] with no persistence failure at all,
the function reports success yet the purchase_history table holds only the
row for eventA3 — the second event is silently dropped, contradicting both
the claim and the code's own comment "All purchases aplied. OK.". -/
theorem update_purchase_data_drops_second_event :
    (update_purchase_data noPurchaseFail emptyDB [eventA3, eventB2]).1 = true ∧
    (update_purchase_data noPurchaseFail emptyDB [eventA3, eventB2]).2.purchase_history =
      [mkPurchaseHistory eventA3] :=
  ⟨rfl, rfl⟩

/-- C2.  The claim says a purchase event whose code is found neither among
live items nor among deleted records leads to exactly one persisted Issue.
The code builds the Issue object but never calls db.session.add on it
(sync_utilities.py lines 149-156), so nothing is persisted: on a database
holding only itemA and the unmatched event eventGhost, update_stock_data
reports success with issues_raised = 1, yet the returned state is
completely unchanged — in particular the issues table is still empty. -/
theorem update_stock_data_not_found_issue_never_persisted :
    update_stock_data noStockFail dbItemA [eventGhost] =
      ((true, stockSuccessMessage, 1), dbItemA) :=
  rfl

/-- C3.  The claim (and the spec's needsOutboundSync invariant) says any
mutation of quantity or the purchased-units counter sets requires_sync to
true.  update_stock_data (sync_utilities.py lines 168-187) never touches
requires_sync: applying eventA3 to itemA with its flag already cleared
mutates units_in_stock (10 to 7) and units_purchased (0 to 3) but leaves
requires_sync = false. -/
theorem update_stock_data_mutation_leaves_flag_false :
    (update_stock_data noStockFail dbItemAUnflagged [eventA3]).2.items =
      [{ itemAUnflagged with units_in_stock := 7, units_purchased := 3 }] ∧
    ({ itemAUnflagged with units_in_stock := 7, units_purchased := 3 } : Item).requires_sync
      = false :=
  ⟨rfl, rfl⟩

/-- C4.  The claim says that whenever update_stock_data reports failure,
the run ends in the APPLYING phase with a SyncHistory row of error code 3
and no upload.  The route tests `if not update_stock_data(...)` (routes.py
line 147), but update_stock_data returns a 3-tuple, and a non-empty tuple
is always truthy in Python, so the failure is invisible: with a stock
commit oracle that fails immediately, update_stock_data itself returns
success = False, yet the sync run still attempts the upload, renders the
success page, and its only SyncHistory row carries error code 0 — no row
with error code 3 is ever written. -/
theorem sync_stock_failure_is_swallowed :
    (update_stock_data allStockFail dbItemA [eventA3]).1.1 = false ∧
    (sync noPurchaseFail allStockFail (.ok [eventA3])
        (.response 200 (Json.bool true)) dbItemA).upload_attempted = true ∧
    (sync noPurchaseFail allStockFail (.ok [eventA3])
        (.response 200 (Json.bool true)) dbItemA).render = SyncRender.success ∧
    (sync noPurchaseFail allStockFail (.ok [eventA3])
        (.response 200 (Json.bool true)) dbItemA).db.sync_history =
      [{ error_code := 0 }] :=
  ⟨rfl, rfl, rfl, rfl⟩

/-- Computation rule for the ItemStatus equality test. -/
lemma status_beq_nfs_fs : (ItemStatus.NOT_FOR_SALE == ItemStatus.FOR_SALE) = false := rfl

/-- Computation rule for the ItemStatus equality test. -/
lemma status_beq_fs_nfs : (ItemStatus.FOR_SALE == ItemStatus.NOT_FOR_SALE) = false := rfl

/-- Computation rule for the ItemStatus equality test. -/
lemma status_beq_fs_fs : (ItemStatus.FOR_SALE == ItemStatus.FOR_SALE) = true := rfl

/-- Computation rule for the ItemStatus equality test. -/
lemma status_beq_nfs_nfs : (ItemStatus.NOT_FOR_SALE == ItemStatus.NOT_FOR_SALE) = true := rfl

/-- C6.  The four delta-category predicates used by the sync route's
prepare calls are pairwise disjoint, and a record sits in exactly one
category exactly when its requires_sync flag is pending: categoryCount is
1 on pending records and 0 on the rest, so no record can be in two
categories and every pending record appears in exactly one. -/
theorem delta_categories_partition_pending (r : StoreRecord) :
    categoryCount r = cond (recordPending r) 1 0 := by
  cases r with
  | deletedRec d =>
      cases hd : d.requires_sync <;>
        simp [categoryCount, inDeletedCategory, inNotForSaleCategory, inOutOfStockCategory,
          inStockUpdatesCategory, deletedFilter, recordPending, hd]
  | stockRec i =>
      cases hs : i.status <;> cases hr : i.requires_sync <;>
        cases hq : decide ((0 : Int) < i.units_in_stock) <;>
          cases hq2 : decide (i.units_in_stock ≤ (0 : Int)) <;>
        simp only [categoryCount, inDeletedCategory, inNotForSaleCategory, inOutOfStockCategory,
          inStockUpdatesCategory, notForSaleFilter, outOfStockFilter, stockUpdatesFilter,
          recordPending, status_beq_nfs_fs, status_beq_fs_nfs, status_beq_fs_fs,
          status_beq_nfs_nfs, hs, hr, hq, hq2, Bool.true_and, Bool.false_and, Bool.and_true,
          Bool.and_false, Bool.and_self, Bool.cond_true, Bool.cond_false] <;>
        first
          | rfl
          | (exfalso
             simp only [decide_eq_true_eq, decide_eq_false_iff_not] at hq hq2
             omega)

/-- C5.  For a purchase event on a live item (found among items, absent
from deleted records) whose quantity is at least the current stock,
update_stock_data on that event succeeds with exactly one issue raised,
the item's quantity is clamped to exactly 0, its purchased-units counter
grows by the full purchased amount, and exactly one Issue naming the zero
or negative balance is appended. -/
theorem update_stock_data_underflow_clamps_to_zero (db : WarehouseDB) (p : PurchaseEvent)
    (it : Item) (hfind : find_first_item db.items p.code = some it)
    (hdel : find_first_deleted db.deleted_items p.code = none)
    (hq : it.units_in_stock ≤ p.quantity) :
    (update_stock_data noStockFail db [p]).1 = (true, stockSuccessMessage, 1) ∧
    find_first_item (update_stock_data noStockFail db [p]).2.items p.code =
      some { it with units_in_stock := 0
                     units_purchased := it.units_purchased + p.quantity } ∧
    (update_stock_data noStockFail db [p]).2.issues =
      db.issues ++
        [mkIssue (runningOutMessage p.code it.name (it.units_in_stock - p.quantity))] ∧
    (update_stock_data noStockFail db [p]).2.deleted_items = db.deleted_items := by
  have happ := apply_purchase_event_underflow db p it hfind hdel hq
  have hrun : update_stock_data noStockFail db [p] =
      ((true, stockSuccessMessage, 1),
       { db with
          issues := db.issues ++
            [mkIssue (runningOutMessage p.code it.name (it.units_in_stock - p.quantity))]
          items := update_first_item db.items p.code (fun i =>
            { i with units_in_stock := 0
                     units_purchased := i.units_purchased + p.quantity }) }) := by
    simp [update_stock_data, update_stock_data_go, noStockFail, happ]
  refine ⟨?_, ?_, ?_, ?_⟩ <;> rw [hrun]
  show find_first_item (update_first_item db.items p.code (fun i =>
      { i with units_in_stock := 0
               units_purchased := i.units_purchased + p.quantity })) p.code =
    some { it with units_in_stock := 0
                   units_purchased := it.units_purchased + p.quantity }
  rw [find_first_item_update_first_item db.items p.code (fun i =>
      { i with units_in_stock := 0
               units_purchased := i.units_purchased + p.quantity }) (fun i => rfl), hfind]
  rfl

/-- C5 witness: itemA holds 10 units, eventA12 purchases 12; after the
batch the item is at 0 units with 12 units purchased and the
running-out-of-stock issue reporting balance -2 is on file. -/
theorem update_stock_data_underflow_clamps_to_zero_witness :
    find_first_item dbItemA.items eventA12.code = some itemA ∧
    find_first_deleted dbItemA.deleted_items eventA12.code = none ∧
    itemA.units_in_stock ≤ eventA12.quantity ∧
    (find_first_item (update_stock_data noStockFail dbItemA [eventA12]).2.items eventA12.code =
      some { itemA with units_in_stock := 0
                        units_purchased := itemA.units_purchased + eventA12.quantity } ∧
     (update_stock_data noStockFail dbItemA [eventA12]).2.issues =
      dbItemA.issues ++
        [mkIssue (runningOutMessage eventA12.code itemA.name
          (itemA.units_in_stock - eventA12.quantity))]) :=
  ⟨by decide, rfl, by decide,
   (update_stock_data_underflow_clamps_to_zero dbItemA eventA12 itemA (by decide) rfl
      (by decide)).2.1,
   (update_stock_data_underflow_clamps_to_zero dbItemA eventA12 itemA (by decide) rfl
      (by decide)).2.2.1⟩

/-- C10.  When a purchase event's code matches both a live item and a
deleted record, the deleted-item branch wins (it sits before the live-item
branch and ends in `continue`, sync_utilities.py lines 158-165): the run
succeeds with exactly one issue, the deleted-item Issue is appended, and
the state is otherwise untouched — in particular the live item keeps its
quantity, counter and sync flag. -/
theorem update_stock_data_deleted_takes_precedence (db : WarehouseDB) (p : PurchaseEvent)
    (it : Item) (d : DeletedItem)
    (hfind : find_first_item db.items p.code = some it)
    (hdel : find_first_deleted db.deleted_items p.code = some d) :
    update_stock_data noStockFail db [p] =
      ((true, stockSuccessMessage, 1),
       { db with issues := db.issues ++ [mkIssue (deletedItemMessage p.code d.name)] }) := by
  have happ : apply_purchase_event db p =
      ({ db with issues := db.issues ++ [mkIssue (deletedItemMessage p.code d.name)] }, 1) := by
    simp [apply_purchase_event, hfind, hdel]
  simp [update_stock_data, update_stock_data_go, noStockFail, happ]

/-- C10 witness: code A100 is both live (itemA) and deleted (deletedA);
the purchase eventA3 only files the deleted-item issue and leaves the
items table — hence itemA's quantity, counter and flag — untouched. -/
theorem update_stock_data_deleted_takes_precedence_witness :
    find_first_item dbBoth.items eventA3.code = some itemA ∧
    find_first_deleted dbBoth.deleted_items eventA3.code = some deletedA ∧
    update_stock_data noStockFail dbBoth [eventA3] =
      ((true, stockSuccessMessage, 1),
       { dbBoth with
          issues := dbBoth.issues ++ [mkIssue (deletedItemMessage eventA3.code deletedA.name)] }) :=
  ⟨by decide, by decide,
   update_stock_data_deleted_takes_precedence dbBoth eventA3 itemA deletedA (by decide)
     (by decide)⟩

/-- C7.  When the apply phase ends clean and the push of the category
payload fails (falsy upload result), the sync run changes no
requires_sync flag on any item and no deleted record at all, so running
the categorizer on the post-run state yields exactly the category
membership computed during the failed run; flags can only be cleared after
a confirmed truthy push. -/
theorem sync_failed_upload_changes_no_flags (pcf : PurchaseEvent → Bool) (scf : Nat → Bool)
    (dl : HttpGetResult) (ul : HttpPostResult) (db : WarehouseDB)
    (happly : (sync_apply_phase pcf scf dl db).1 = 0)
    (hup : pyTruthyOptJson (upload_data ul) = false) :
    (sync pcf scf dl ul db).db.items.map itemFlagProj = db.items.map itemFlagProj ∧
    (sync pcf scf dl ul db).db.deleted_items = db.deleted_items ∧
    build_sync_data (sync pcf scf dl ul db).db =
      build_sync_data (sync_apply_phase pcf scf dl db).2 := by
  rw [sync_eq_upload_failed pcf scf dl ul db happly hup]
  obtain ⟨h1, h2⟩ := sync_apply_phase_preserves_flags pcf scf dl db
  exact ⟨h1, h2, build_sync_data_addSyncRecord _ _⟩

/-- C7 witness: an empty purchase download followed by a 500 upload
response on a database holding the flagged itemA; the flag projection and
the deleted table are untouched. -/
theorem sync_failed_upload_changes_no_flags_witness :
    (sync_apply_phase noPurchaseFail noStockFail (HttpGetResult.ok []) dbItemA).1 = 0 ∧
    pyTruthyOptJson (upload_data (HttpPostResult.response 500 Json.null)) = false ∧
    (sync noPurchaseFail noStockFail (HttpGetResult.ok [])
        (HttpPostResult.response 500 Json.null) dbItemA).db.items.map itemFlagProj =
      dbItemA.items.map itemFlagProj :=
  ⟨rfl, rfl,
   (sync_failed_upload_changes_no_flags noPurchaseFail noStockFail (HttpGetResult.ok [])
      (HttpPostResult.response 500 Json.null) dbItemA rfl rfl).1⟩

/-- C8.  A failed download (download_data reports False: non-200 status or
a connectivity/timeout exception) makes the sync run write exactly one
SyncHistory row with error code 1, apply no purchase to any table, attempt
no upload, and render the failure page. -/
theorem sync_download_failure_writes_error_one (pcf : PurchaseEvent → Bool) (scf : Nat → Bool)
    (dl : HttpGetResult) (ul : HttpPostResult) (db : WarehouseDB)
    (h : (download_data dl).1 = false) :
    (sync pcf scf dl ul db).db.sync_history = db.sync_history ++ [{ error_code := 1 }] ∧
    (sync pcf scf dl ul db).db.items = db.items ∧
    (sync pcf scf dl ul db).db.deleted_items = db.deleted_items ∧
    (sync pcf scf dl ul db).db.purchase_history = db.purchase_history ∧
    (sync pcf scf dl ul db).db.issues = db.issues ∧
    (sync pcf scf dl ul db).upload_attempted = false ∧
    (sync pcf scf dl ul db).render = SyncRender.failure := by
  cases dl with
  | ok body => exact Bool.noConfusion h
  | httpError status text => exact ⟨rfl, rfl, rfl, rfl, rfl, rfl, rfl⟩
  | connectionError => exact ⟨rfl, rfl, rfl, rfl, rfl, rfl, rfl⟩
  | timeoutError => exact ⟨rfl, rfl, rfl, rfl, rfl, rfl, rfl⟩

/-- C8 witness: a connection error on the download against the dbItemA
state; the run records error code 1, leaves all tables alone, attempts no
upload. -/
theorem sync_download_failure_writes_error_one_witness :
    (download_data HttpGetResult.connectionError).1 = false ∧
    (sync noPurchaseFail noStockFail HttpGetResult.connectionError
        (HttpPostResult.response 200 (Json.bool true)) dbItemA).db.sync_history =
      dbItemA.sync_history ++ [{ error_code := 1 }] ∧
    (sync noPurchaseFail noStockFail HttpGetResult.connectionError
        (HttpPostResult.response 200 (Json.bool true)) dbItemA).upload_attempted = false :=
  ⟨rfl,
   (sync_download_failure_writes_error_one noPurchaseFail noStockFail
      HttpGetResult.connectionError (HttpPostResult.response 200 (Json.bool true)) dbItemA
      rfl).1,
   (sync_download_failure_writes_error_one noPurchaseFail noStockFail
      HttpGetResult.connectionError (HttpPostResult.response 200 (Json.bool true)) dbItemA
      rfl).2.2.2.2.2.1⟩

/-- C9.  The sync run treats the push as failed exactly when the value
upload_data returns is falsy: upload_data yields None on every non-200
status and every connection/timeout error, and the parsed body itself on a
200 response — so a 200 response with a falsy JSON body also counts as
failure.  On failure the run writes a SyncHistory row with error code 1
and changes no requires_sync flag; on a truthy body it renders success
with an error-code-0 row. -/
theorem sync_push_failed_iff_falsy_upload (pcf : PurchaseEvent → Bool) (scf : Nat → Bool)
    (dl : HttpGetResult) (ul : HttpPostResult) (db : WarehouseDB)
    (happly : (sync_apply_phase pcf scf dl db).1 = 0) :
    ((sync pcf scf dl ul db).render = SyncRender.failure ↔
      pyTruthyOptJson (upload_data ul) = false) ∧
    (pyTruthyOptJson (upload_data ul) = false →
      (sync pcf scf dl ul db).db.sync_history =
        (sync_apply_phase pcf scf dl db).2.sync_history ++ [{ error_code := 1 }] ∧
      (sync pcf scf dl ul db).db.items.map itemFlagProj = db.items.map itemFlagProj ∧
      (sync pcf scf dl ul db).db.deleted_items = db.deleted_items) ∧
    (pyTruthyOptJson (upload_data ul) = true →
      (sync pcf scf dl ul db).render = SyncRender.success ∧
      (sync pcf scf dl ul db).db.sync_history =
        (sync_apply_phase pcf scf dl db).2.sync_history ++ [{ error_code := 0 }]) ∧
    (∀ status body, status ≠ 200 → upload_data (HttpPostResult.response status body) = none) ∧
    upload_data HttpPostResult.connectionError = none ∧
    upload_data HttpPostResult.timeoutError = none ∧
    (∀ body, upload_data (HttpPostResult.response 200 body) = some body) := by
  refine ⟨?_, ?_, ?_, ?_, rfl, rfl, fun body => rfl⟩
  · cases hup : pyTruthyOptJson (upload_data ul) with
    | false =>
        rw [sync_eq_upload_failed pcf scf dl ul db happly hup]
        simp
    | true =>
        rw [(sync_upload_ok_projections pcf scf dl ul db happly hup).1]
        simp
  · intro hup
    rw [sync_eq_upload_failed pcf scf dl ul db happly hup]
    obtain ⟨h1, h2⟩ := sync_apply_phase_preserves_flags pcf scf dl db
    exact ⟨rfl, h1, h2⟩
  · intro hup
    exact ⟨(sync_upload_ok_projections pcf scf dl ul db happly hup).1,
           (sync_upload_ok_projections pcf scf dl ul db happly hup).2.1⟩
  · intro status body h
    simp [upload_data, h]

/-- C9 witness: a push answered 200 with an empty-object body — an
HTTP-level success whose parsed body is falsy — makes the run record error
code 1 and render failure. -/
theorem sync_push_failed_iff_falsy_upload_witness :
    (sync_apply_phase noPurchaseFail noStockFail (HttpGetResult.ok []) dbItemA).1 = 0 ∧
    upload_data (HttpPostResult.response 200 (Json.obj [])) = some (Json.obj []) ∧
    ((sync noPurchaseFail noStockFail (HttpGetResult.ok [])
        (HttpPostResult.response 200 (Json.obj [])) dbItemA).render = SyncRender.failure ↔
      pyTruthyOptJson (upload_data (HttpPostResult.response 200 (Json.obj []))) = false) ∧
    (sync noPurchaseFail noStockFail (HttpGetResult.ok [])
        (HttpPostResult.response 200 (Json.obj [])) dbItemA).db.sync_history =
      (sync_apply_phase noPurchaseFail noStockFail (HttpGetResult.ok [])
          dbItemA).2.sync_history ++ [{ error_code := 1 }] :=
  ⟨rfl, rfl,
   (sync_push_failed_iff_falsy_upload noPurchaseFail noStockFail (HttpGetResult.ok [])
      (HttpPostResult.response 200 (Json.obj [])) dbItemA rfl).1,
   ((sync_push_failed_iff_falsy_upload noPurchaseFail noStockFail (HttpGetResult.ok [])
      (HttpPostResult.response 200 (Json.obj [])) dbItemA rfl).2.1 rfl).1⟩

end Malldepot
